import Mathlib

/-!
Verification of the dig-tool frame-processing and decision pipeline
(`src/main.py`, class `DigTool`) against its natural-language specification.

The development shallowly embeds, over exact rational arithmetic:

* the zone smoothing / color-lock maintenance block of `run_main_loop`
  (`main.py` lines 1551-1594), as `ZoneState` / `zone_step`;
* the line-movement / target-engagement check
  (`DigTool.check_line_movement`, `DigTool.check_target_engagement`,
  `main.py` lines 222-250), as `check_line_movement` /
  `check_target_engagement`;
* the per-frame auto-walk state machine plus click-scheduler block of
  `run_main_loop` (`main.py` lines 1634-1953), as `LoopState` /
  `frameStep`, with multi-frame runs as `runFrames`.

Values produced by code that lives outside `src/main.py`
(`core/detection.py`: `VelocityCalculator.predict_position`,
`get_prediction_confidence`, sweet-spot width computation;
`core/automation.py`: `perform_click_action`) enter the model as per-frame
oracle inputs in `FrameInput`.  Python floats are modelled as rationals;
the one transcendental, `(game_fps / 120.0) ** 0.15`, is supplied as the
oracle input `fpsPowFactor`.
-/

namespace DigTool

/-! ## Zone smoothing and color lock (main.py lines 1535-1594) -/

/-- Persistent zone-detector state mutated by the block at
`main.py` lines 1535-1594: the smoothed zone, the consecutive
non-detection counter, and the color lock. -/
structure ZoneState where
  smoothed_zone_x : Option ℚ
  smoothed_zone_w : Option ℚ
  frames_since_last_zone_detection : ℕ
  is_color_locked : Bool
  locked_color_hsv : Option (ℚ × ℚ × ℚ)
  locked_color_hex : Option String
  is_low_sat_lock : Bool
  deriving Repr, DecidableEq

/-- An accepted zone candidate for one frame (`raw_zone_x`, `raw_zone_w`
at `main.py` line 1534) together with the mean HSV over the contour mask
and the derived display hex color, which the acquisition code at lines
1536-1546 computes through OpenCV (external); they enter the model as
oracle data attached to the candidate. -/
structure ZoneCand where
  x : ℚ
  w : ℚ
  meanHsv : ℚ × ℚ × ℚ
  hex : String
  deriving Repr, DecidableEq

/-- Adaptive smoothing factor, `main.py` lines 1563-1575: `1.0` when the
configured factor is `≥ 1.0`, the factor itself when it is `≤ 0.01`,
otherwise boosted by `0.1` (capped at `1.0`) when either raw value jumped
by more than 10% of the frame width. -/
def adaptive_smoothing_factor (zone_smoothing_factor width position_change width_change : ℚ) : ℚ :=
  if 1 ≤ zone_smoothing_factor then 1
  else if zone_smoothing_factor ≤ 1 / 100 then zone_smoothing_factor
  else if width * (1 / 10) < position_change ∨ width * (1 / 10) < width_change then
    min (zone_smoothing_factor + 1 / 10) 1
  else zone_smoothing_factor

/-- One exponential-smoothing update of an already-set smoothed zone,
`main.py` lines 1560-1584: `smoothed = a·raw + (1−a)·smoothed`
independently for position and width with the shared adaptive factor. -/
def smooth_zone (zone_smoothing_factor width rawX rawW curX curW : ℚ) : ℚ × ℚ :=
  let a := adaptive_smoothing_factor zone_smoothing_factor width |rawX - curX| |rawW - curW|
  (a * rawX + (1 - a) * curX, a * rawW + (1 - a) * curW)

/-- Lock-release threshold `zone_timeout_frames = max(int(game_fps * 0.167), 5)`
(`main.py` line 1588); Python `int()` truncates, which is `floor` for the
nonnegative frame rates the loop produces (`game_fps = max(target_fps, 1)`). -/
def zone_timeout_frames (game_fps : ℚ) : ℕ :=
  max (Int.toNat ⌊game_fps * (167 / 1000)⌋) 5

/-- One frame of the zone-state maintenance block, `main.py` lines
1535-1594: color-lock acquisition on an accepted candidate while
unlocked, smoothing (snap when unset), the consecutive non-detection
counter, and the timeout release which clears the lock fields and the
smoothed position. -/
def zone_step (cand : Option ZoneCand) (zone_smoothing_factor width game_fps : ℚ)
    (s : ZoneState) : ZoneState :=
  let s1 :=
    match cand with
    | some c =>
      let s0 :=
        if s.is_color_locked then s
        else
          { s with
            is_color_locked := true
            locked_color_hsv := some c.meanHsv
            locked_color_hex := some c.hex
            is_low_sat_lock := c.meanHsv.2.1 < 25 }
      let s0 := { s0 with frames_since_last_zone_detection := 0 }
      match s0.smoothed_zone_x with
      | none => { s0 with smoothed_zone_x := some c.x, smoothed_zone_w := some c.w }
      | some curX =>
        let curW := s0.smoothed_zone_w.getD 0
        let sm := smooth_zone zone_smoothing_factor width c.x c.w curX curW
        { s0 with smoothed_zone_x := some sm.1, smoothed_zone_w := some sm.2 }
    | none =>
      { s with frames_since_last_zone_detection := s.frames_since_last_zone_detection + 1 }
  if zone_timeout_frames game_fps < s1.frames_since_last_zone_detection then
    { s1 with
      is_color_locked := false
      locked_color_hsv := none
      locked_color_hex := none
      smoothed_zone_x := none }
  else s1

/-- Iterated zone maintenance over `n` consecutive frames with no
accepted candidate. -/
def zone_step_none_iter (zone_smoothing_factor width game_fps : ℚ) :
    ℕ → ZoneState → ZoneState
  | 0, s => s
  | n + 1, s => zone_step none zone_smoothing_factor width game_fps
      (zone_step_none_iter zone_smoothing_factor width game_fps n s)

end DigTool

namespace DigTool

theorem zone_step_none_frames (α w fps : ℚ) (s : ZoneState) (n : ℕ) :
    (zone_step_none_iter α w fps n s).frames_since_last_zone_detection =
      s.frames_since_last_zone_detection + n := by
  induction n with
  | zero => rfl
  | succ n ih =>
    simp only [zone_step_none_iter, zone_step]
    split
    · simpa [ih] using by omega
    · simpa [ih] using by omega

theorem zone_step_none_locked_aux (α w fps : ℚ) (s : ZoneState)
    (h0 : s.frames_since_last_zone_detection = 0) (n : ℕ) :
    (zone_step_none_iter α w fps n s).is_color_locked =
      (s.is_color_locked && decide (n ≤ zone_timeout_frames fps)) := by
  induction n with
  | zero => simp [zone_step_none_iter]
  | succ n ih =>
    have hf := zone_step_none_frames α w fps s n
    rw [h0] at hf
    simp only [zone_step_none_iter, zone_step]
    split
    · next hgt =>
      simp only [hf] at hgt
      have : ¬ (n + 1 ≤ zone_timeout_frames fps) := by omega
      simp [this]
    · next hle =>
      simp only [hf] at hle
      have hn1 : n + 1 ≤ zone_timeout_frames fps := by omega
      have hn : n ≤ zone_timeout_frames fps := by omega
      simp [ih, hn, hn1]

/-- A concrete acquired color lock, freshly refreshed by a detection
(`frames_since_last_zone_detection = 0`), used in scenarios at 60 fps. -/
def lockedZoneState : ZoneState :=
  { smoothed_zone_x := some 40
    smoothed_zone_w := some 50
    frames_since_last_zone_detection := 0
    is_color_locked := true
    locked_color_hsv := some (100, 200, 150)
    locked_color_hex := some "#aabbcc"
    is_low_sat_lock := true }

/-- C3 counterexample: at 60 fps the claimed release count is
`K = max(round(60·0.167), 5) = 10`, but after exactly 10 consecutive
frames with no accepted zone candidate the color lock is still held
(the code releases only when the counter strictly exceeds the
threshold, i.e. on the 11th consecutive non-detection). -/
theorem color_lock_not_released_at_K :
    zone_timeout_frames 60 = 10 ∧
      (zone_step_none_iter (1/2) 100 60 10 lockedZoneState).is_color_locked = true := by
  have h10 : zone_timeout_frames 60 = 10 := by norm_num [zone_timeout_frames]; rfl
  refine ⟨h10, ?_⟩
  rw [zone_step_none_locked_aux (1/2) 100 60 lockedZoneState rfl 10, h10]
  rfl

/-- C3 (amended): a color lock, once acquired (with the non-detection
counter at 0), is released after exactly `K + 1` consecutive frames with
no accepted zone candidate, where `K = max(int(targetFps · 0.167), 5)`
(`int` truncates), and never earlier: it is still held after any
`n ≤ K` such frames and released after `K + 1` of them.  At 60 fps
`K = 10`, so the 11th consecutive non-detection releases the lock; in
particular 12 consecutive frames without a qualifying contour leave it
released. -/
theorem color_lock_release_after_timeout (α w fps : ℚ) (s : ZoneState)
    (hl : s.is_color_locked = true)
    (h0 : s.frames_since_last_zone_detection = 0) :
    (∀ n, n ≤ zone_timeout_frames fps →
      (zone_step_none_iter α w fps n s).is_color_locked = true) ∧
    (zone_step_none_iter α w fps (zone_timeout_frames fps + 1) s).is_color_locked = false := by
  constructor
  · intro n hn
    rw [zone_step_none_locked_aux α w fps s h0 n, hl]
    simpa using hn
  · rw [zone_step_none_locked_aux α w fps s h0 _, hl]
    simp

/-- C3 witness: the amended release law evaluated at 60 fps on a
concrete locked state: the lock survives 10 candidate-free frames and is
gone after 11. -/
theorem color_lock_release_after_timeout_witness :
    (lockedZoneState.is_color_locked = true ∧
      lockedZoneState.frames_since_last_zone_detection = 0) ∧
    (zone_step_none_iter (1/2) 100 60 (zone_timeout_frames 60) lockedZoneState).is_color_locked
        = true ∧
    (zone_step_none_iter (1/2) 100 60 (zone_timeout_frames 60 + 1) lockedZoneState).is_color_locked
        = false := by
  refine ⟨⟨rfl, rfl⟩, ?_, ?_⟩
  · exact (color_lock_release_after_timeout (1/2) 100 60 lockedZoneState rfl rfl).1 _ le_rfl
  · exact (color_lock_release_after_timeout (1/2) 100 60 lockedZoneState rfl rfl).2

/-- A locked zone state whose non-detection counter has already reached
the 60 fps release threshold, so that the next candidate-free frame
triggers the release. -/
def staleZoneState : ZoneState :=
  { lockedZoneState with frames_since_last_zone_detection := 10 }

/-- C9 counterexample: a lock-release step (11th consecutive
non-detection at 60 fps, starting from a locked state with the counter
at 10) does clear the locked flag, but leaves both the low-saturation
flag and the smoothed zone width untouched, contradicting the claim
that the entire `ColorLock` state and the entire smoothed-zone state
are cleared. -/
theorem lock_release_leaves_low_sat_and_width :
    (zone_step none (1/2) 100 60 staleZoneState).is_color_locked = false ∧
    (zone_step none (1/2) 100 60 staleZoneState).is_low_sat_lock = true ∧
    (zone_step none (1/2) 100 60 staleZoneState).smoothed_zone_w = some 50 := by
  have h10 : zone_timeout_frames 60 = 10 := by norm_num [zone_timeout_frames]; rfl
  simp [zone_step, staleZoneState, lockedZoneState, h10]

/-- C9 (amended): when the consecutive-non-detection timeout fires, the
release clears the locked flag, the locked mean HSV, the display hex
color and the smoothed zone position, while the low-saturation flag and
the smoothed zone width are left unchanged (they are stale until the
next snap, which overwrites both). -/
theorem lock_release_clears (α w fps : ℚ) (s : ZoneState)
    (h : zone_timeout_frames fps < s.frames_since_last_zone_detection + 1) :
    (zone_step none α w fps s).is_color_locked = false ∧
    (zone_step none α w fps s).locked_color_hsv = none ∧
    (zone_step none α w fps s).locked_color_hex = none ∧
    (zone_step none α w fps s).smoothed_zone_x = none ∧
    (zone_step none α w fps s).is_low_sat_lock = s.is_low_sat_lock ∧
    (zone_step none α w fps s).smoothed_zone_w = s.smoothed_zone_w := by
  simp [zone_step, h]

/-- C9 witness: the amended clearing behaviour evaluated on a concrete
locked state whose counter has just exceeded the 60 fps threshold. -/
theorem lock_release_clears_witness :
    (zone_timeout_frames 60 < staleZoneState.frames_since_last_zone_detection + 1) ∧
    (zone_step none (1/2) 100 60 staleZoneState).locked_color_hsv = none := by
  have h10 : zone_timeout_frames 60 = 10 := by norm_num [zone_timeout_frames]; rfl
  have hlt : zone_timeout_frames 60 < staleZoneState.frames_since_last_zone_detection + 1 := by
    rw [h10]; exact Nat.lt_succ_self 10
  exact ⟨hlt, (lock_release_clears (1/2) 100 60 staleZoneState hlt).2.1⟩

/-- C8: one smoothing step applied to an already-set smoothed zone with
nonnegative smoothing factor `α` changes the smoothed position and the
smoothed width each by at most `max(α, α + 0.1)` times the absolute
difference between the raw and current smoothed value, and with `α = 1`
the smoothed pair becomes exactly the raw pair. -/
theorem zone_smoother_bounded (α w rawX rawW curX curW : ℚ) (hα : 0 ≤ α) :
    |(smooth_zone α w rawX rawW curX curW).1 - curX| ≤ max α (α + 1/10) * |rawX - curX| ∧
    |(smooth_zone α w rawX rawW curX curW).2 - curW| ≤ max α (α + 1/10) * |rawW - curW| ∧
    (α = 1 → smooth_zone α w rawX rawW curX curW = (rawX, rawW)) := by
  set a := adaptive_smoothing_factor α w |rawX - curX| |rawW - curW| with ha
  have ha0 : 0 ≤ a := by
    rw [ha]
    unfold adaptive_smoothing_factor
    split_ifs with h1 h2 h3
    · norm_num
    · exact hα
    · exact le_min (by linarith) (by norm_num)
    · exact hα
  have ha1 : a ≤ max α (α + 1/10) := by
    rw [ha]
    unfold adaptive_smoothing_factor
    split_ifs with h1 h2 h3
    · exact le_trans h1 (le_max_left _ _)
    · exact le_max_left _ _
    · exact le_trans (min_le_left _ _) (le_max_right _ _)
    · exact le_max_left _ _
  have key : ∀ raw cur : ℚ, |a * raw + (1 - a) * cur - cur| ≤ max α (α + 1/10) * |raw - cur| := by
    intro raw cur
    have h1 : a * raw + (1 - a) * cur - cur = a * (raw - cur) := by ring
    rw [h1, abs_mul, abs_of_nonneg ha0]
    exact mul_le_mul_of_nonneg_right ha1 (abs_nonneg _)
  refine ⟨key rawX curX, key rawW curW, ?_⟩
  intro hα1
  have haa : a = 1 := by
    rw [ha]
    unfold adaptive_smoothing_factor
    rw [if_pos (le_of_eq hα1.symm)]
  simp only [smooth_zone, ← ha, haa]
  norm_num

/-! ## Line movement and target engagement (main.py lines 222-250) -/

/-- Maximum of a nonempty list of integers, as Python `max` over the
valid positions (`main.py` line 241); `0` on the empty list, which the
code never reaches because it is guarded by `len(valid_positions) < 5`. -/
def listMax : List ℤ → ℤ
  | [] => 0
  | x :: xs => xs.foldl max x

/-- Minimum of a nonempty list of integers, as Python `min`
(`main.py` line 240); `0` on the empty list (unreachable, see `listMax`). -/
def listMin : List ℤ → ℤ
  | [] => 0
  | x :: xs => xs.foldl min x

/-- Sliding-window size for the movement check, `main.py` lines 223-225:
`max(int(base_line_movement_check_frames * (target_fps / 120.0)), 10)`
with `base_line_movement_check_frames = 30` (line 152); Python `int()`
truncates, which is `floor` for the nonnegative frame rates used. -/
def line_movement_check_frames (target_fps : ℚ) : ℕ :=
  max (Int.toNat ⌊30 * (target_fps / 120)⌋) 10

/-- `DigTool.check_line_movement` (`main.py` lines 222-244): append the
current line position to the history, trim the history to the
frame-rate-scaled window, and report movement when the history holds at
least 10 samples, at least 5 of them valid (not the sentinel `-1`), and
the span of the valid positions reaches `min_movement_threshold = 50`
(line 153).  Returns the flag together with the updated history. -/
def trimmed_history (hist : List ℤ) (line_pos : ℤ) (target_fps : ℚ) : List ℤ :=
  let h1 := hist ++ [line_pos]
  if line_movement_check_frames target_fps < h1.length then h1.tail else h1

/-- Movement flag over the trimmed history, `main.py` lines 232-244. -/
def check_line_movement (hist : List ℤ) (line_pos : ℤ) (target_fps : ℚ) : Bool × List ℤ :=
  let h2 := trimmed_history hist line_pos target_fps
  if h2.length < 10 then (false, h2)
  else
    let valid := h2.filter (fun p => decide (p ≠ -1))
    if valid.length < 5 then (false, h2)
    else (decide (50 ≤ listMax valid - listMin valid), h2)

/-- `DigTool.check_target_engagement` (`main.py` lines 246-250): the
line is detected this frame and the movement check passes. -/
def check_target_engagement (hist : List ℤ) (line_pos : ℤ) (target_fps : ℚ) : Bool × List ℤ :=
  let r := check_line_movement hist line_pos target_fps
  (decide (line_pos ≠ -1) && r.1, r.2)

/-- C10: target engagement is reported only when the line is detected,
the updated history holds at least 10 samples with at least 5 valid
(non-sentinel) ones whose span is at least 50 pixels; moreover one frame
grows the history by at most one entry, and with at most 8 entries of
history before the frame (so during the first 9 frames after the
history is cleared at bot start) engagement is never reported. -/
theorem target_engagement_conditions :
    (∀ (hist : List ℤ) (pos : ℤ) (fps : ℚ),
      (check_target_engagement hist pos fps).1 = true →
        pos ≠ -1 ∧
        10 ≤ (check_target_engagement hist pos fps).2.length ∧
        5 ≤ ((check_target_engagement hist pos fps).2.filter (fun p => decide (p ≠ -1))).length ∧
        50 ≤ listMax ((check_target_engagement hist pos fps).2.filter (fun p => decide (p ≠ -1)))
              - listMin ((check_target_engagement hist pos fps).2.filter (fun p => decide (p ≠ -1))) ) ∧
    (∀ (hist : List ℤ) (pos : ℤ) (fps : ℚ),
      (check_target_engagement hist pos fps).2.length ≤ hist.length + 1) ∧
    (∀ (hist : List ℤ) (pos : ℤ) (fps : ℚ),
      hist.length ≤ 8 → (check_target_engagement hist pos fps).1 = false) := by
  have main : ∀ (hist : List ℤ) (pos : ℤ) (fps : ℚ),
      ((check_line_movement hist pos fps).1 = true →
        10 ≤ (check_line_movement hist pos fps).2.length ∧
        5 ≤ ((check_line_movement hist pos fps).2.filter (fun p => decide (p ≠ -1))).length ∧
        50 ≤ listMax ((check_line_movement hist pos fps).2.filter (fun p => decide (p ≠ -1)))
              - listMin ((check_line_movement hist pos fps).2.filter (fun p => decide (p ≠ -1))))
      ∧ (check_line_movement hist pos fps).2.length ≤ hist.length + 1 := by
    intro hist pos fps
    unfold check_line_movement
    set h2 : List ℤ := trimmed_history hist pos fps with hh2
    have hlen2 : h2.length ≤ hist.length + 1 := by
      rw [hh2]
      unfold trimmed_history
      dsimp only
      split
      · simp [List.length_tail]
      · simp
    by_cases hA : h2.length < 10
    · simp only [if_pos hA]
      exact ⟨fun hr => by simp at hr, hlen2⟩
    · simp only [if_neg hA]
      by_cases hB : (h2.filter (fun p => decide (p ≠ -1))).length < 5
      · simp only [if_pos hB]
        exact ⟨fun hr => by simp at hr, hlen2⟩
      · simp only [if_neg hB]
        refine ⟨fun hr => ⟨by omega, by omega, by simpa using hr⟩, hlen2⟩
  refine ⟨?_, ?_, ?_⟩
  · intro hist pos fps h
    have hsplit : pos ≠ -1 ∧ (check_line_movement hist pos fps).1 = true := by
      simpa [check_target_engagement] using h
    have h2eq : (check_target_engagement hist pos fps).2 = (check_line_movement hist pos fps).2 :=
      rfl
    rw [h2eq]
    exact ⟨hsplit.1, (main hist pos fps).1 hsplit.2⟩
  · intro hist pos fps
    exact (main hist pos fps).2
  · intro hist pos fps h
    have h9 : (check_line_movement hist pos fps).2.length ≤ 9 := by
      have := (main hist pos fps).2
      omega
    by_contra hc
    have htrue : (check_target_engagement hist pos fps).1 = true := by
      cases hx : (check_target_engagement hist pos fps).1
      · exact absurd hx hc
      · rfl
    have hmv : (check_line_movement hist pos fps).1 = true := by
      have := htrue
      simp only [check_target_engagement, Bool.and_eq_true] at this
      exact this.2
    have := ((main hist pos fps).1 hmv).1
    omega

/-- C10 witness: with an empty history (the state right after the bot
is toggled on) a frame never reports engagement, and the history grows
by at most one entry. -/
theorem target_engagement_conditions_witness :
    (([] : List ℤ).length ≤ 8 ∧ (check_target_engagement [] 120 60).1 = false) ∧
    (check_target_engagement [] 120 60).2.length ≤ ([] : List ℤ).length + 1 := by
  exact ⟨⟨by simp, target_engagement_conditions.2.2 [] 120 60 (by simp)⟩,
    target_engagement_conditions.2.1 [] 120 60⟩

/-- C8 witness: the smoothing bound and the `α = 1` snap evaluated at a
concrete jump (`α = 1/2`, frame width 100, raw zone (60, 20), current
smoothed zone (50, 18)). -/
theorem zone_smoother_bounded_witness :
    (0 ≤ (1/2 : ℚ)) ∧
    |(smooth_zone (1/2) 100 60 20 50 18).1 - 50| ≤ max (1/2) ((1/2) + 1/10) * |(60 : ℚ) - 50| ∧
    smooth_zone 1 100 60 20 50 18 = (60, 20) := by
  exact ⟨by norm_num, (zone_smoother_bounded (1/2) 100 60 20 50 18 (by norm_num)).1,
    (zone_smoother_bounded 1 100 60 20 50 18 (by norm_num)).2.2 rfl⟩

/-! ## Auto-walk state machine and click scheduler (main.py lines 1634-1953)

One iteration of `run_main_loop`'s decision part is modelled by
`frameStep`, composed of the phases in source order: the stale
pending-sell clear (lines 1634-1641), the auto-walk state machine
(lines 1643-1803), the click-scheduler block (lines 1805-1920) and the
dig-completion block (lines 1922-1953).  Quantities produced by code
outside `src/main.py` (velocity, prediction, sweet-spot geometry, the
selling flag, walk-thread liveness) are per-frame oracle inputs. -/

/-- The `auto_walk_state` loop variable (`main.py` line 1177). -/
inductive AutoWalkState
  | move
  | click_to_start
  | wait_for_target
  | digging
  deriving Repr, DecidableEq

/-- Which code path dispatched a click: `perform_instant_click`
(line 1915), the delayed `perform_click` thread of the predictive
branch (lines 1917-1920), the `click_to_start` click (lines 1759-1763)
or the `wait_for_target` retry click (lines 1785-1789). -/
inductive ClickSource
  | directInstant
  | predictive
  | autoWalkStart
  | autoWalkRetry
  deriving Repr, DecidableEq

/-- A dispatched click action: its code path, the delay argument, the
confidence recorded for it (1 for a direct click, the computed
prediction confidence for a predictive one, 0 where the code computes
none), whether the dispatch acquired `click_lock`, and the frame time
at which it was dispatched. -/
structure ClickEvent where
  source : ClickSource
  delay : ℚ
  confidence : ℚ
  acquiredLock : Bool
  time : ℚ
  deriving Repr, DecidableEq

/-- The loop-carried state read and written by the modelled part of one
`run_main_loop` iteration: the instance fields `click_lock` (as a held
flag), `blind_until`, `dig_count` and `startup_time`, and the loop
variables of lines 1177-1195. -/
structure LoopState where
  autoWalkState : AutoWalkState
  clickLock : Bool
  blindUntil : ℚ
  moveCompletedTime : ℚ
  waitForTargetStart : ℚ
  currentStepClickEnabled : Bool
  digCompletedTime : ℚ
  targetDisengagedTime : ℚ
  pendingAutoSell : Bool
  clickRetryCount : ℕ
  digCount : ℕ
  clickDelay : ℚ
  startupTime : ℚ
  deriving Repr, DecidableEq

/-- Per-frame inputs to one iteration: the cached time `current_time_ms`,
parameter values read through `get_param`, and oracle values produced by
code living outside `src/main.py` (`core/detection.py`'s
`VelocityCalculator` and sweet-spot computation, `core/automation.py`'s
selling and walking state, and the async completion of a click task).
`fpsPowFactor` stands for the float power of `(game_fps / 120.0)` with
exponent `0.15` of line 1877, `systemLatency` for
`get_cached_system_latency() / 1000` of line 1842, and
`instantPoolHasRoom` for `len(_click_thread_pool) < _max_click_threads`
after the liveness sweep (`perform_instant_click`, lines 1101-1106): a
full pool silently drops the instant click. -/
structure FrameInput where
  now : ℚ
  running : Bool
  autoWalkEnabled : Bool
  isSelling : Bool
  walkThreadAlive : Bool
  isAutoSellReady : Bool
  stepClickEnabled : Bool
  walkDuration : ℚ
  targetEngaged : Bool
  clickTaskCompleted : Bool
  linePos : ℤ
  sweetSpot : Option (ℚ × ℚ × ℚ)
  velocity : ℚ
  predictionEnabled : Bool
  predictedPos : ℚ
  predictionTime : ℚ
  velocityConfidence : ℚ
  predictionConfidenceThreshold : ℚ
  fpsPowFactor : ℚ
  systemLatency : ℚ
  gameFps : ℚ
  postClickBlindness : ℚ
  autoSellEnabled : Bool
  hasSellButton : Bool
  sellEveryXDigs : ℕ
  instantPoolHasRoom : Bool
  deriving Repr, DecidableEq

/-- Loop constant `max_wait_time = 5000` ms (`main.py` line 1185). -/
def max_wait_time : ℚ := 5000

/-- Loop constant `post_dig_delay = 2000` ms (`main.py` line 1186). -/
def post_dig_delay : ℚ := 2000

/-- Loop constant `max_click_retries = 2` (`main.py` line 1188). -/
def max_click_retries : ℕ := 2

/-- Loop constant `startup_grace_period = 100` ms (`main.py` line 1817). -/
def startup_grace_period : ℚ := 100

/-- Modelled from the spec: `perform_click_action` (in
`core/automation.py`, not under `src/`) releases the click-exclusivity
token on completion of the click task; the completion of an in-flight
task is delivered to the model as the per-frame input flag
`clickTaskCompleted`, applied at the start of the iteration. -/
def apply_click_release (i : FrameInput) (s : LoopState) : LoopState :=
  if i.clickTaskCompleted then { s with clickLock := false } else s

/-- Stale pending-sell clear, `main.py` lines 1634-1641: a pending
auto-sell older than 10 s is force-cleared. -/
def auto_sell_timeout_clear (i : FrameInput) (s : LoopState) : LoopState :=
  if s.pendingAutoSell = true ∧ 0 < s.digCompletedTime ∧ 10000 < i.now - s.digCompletedTime then
    { s with pendingAutoSell := false, digCompletedTime := 0 }
  else s

/-- Auto-walk state machine, `main.py` lines 1643-1803, guarded by
`running and auto_walk_enabled and not is_selling`.  From `move`, a due
pending sell is consumed (both the ready and the not-ready branch clear
the flag; the sell itself runs externally), else a walk step is started
and the state advances to `click_to_start` with a deadline of
`now + walk_duration + 300`.  From `click_to_start` past the deadline,
a click is dispatched under the click token and the state advances to
`wait_for_target`; with clicking disabled for the step the state falls
back to `move`.  From `wait_for_target`, engagement advances to
`digging`; a timed-out wait increments the retry counter (dispatching a
retry click when the token is free) while retries remain, else falls
back to `move` resetting the counter.  From `digging`, the
disengagement timestamp is maintained. -/
def auto_walk_phase (i : FrameInput) (s : LoopState) : LoopState × List ClickEvent :=
  if i.running = true ∧ i.autoWalkEnabled = true ∧ i.isSelling = false then
    match s.autoWalkState with
    | .move =>
      if s.pendingAutoSell = true ∧ 0 < s.digCompletedTime ∧
          post_dig_delay ≤ i.now - s.digCompletedTime then
        if i.isAutoSellReady = true then
          ({ s with pendingAutoSell := false, digCompletedTime := 0 }, [])
        else
          ({ s with pendingAutoSell := false, digCompletedTime := 0 }, [])
      else if i.isSelling = false ∧ s.pendingAutoSell = false then
        if i.walkThreadAlive = false then
          ({ s with
              autoWalkState := .click_to_start
              currentStepClickEnabled := i.stepClickEnabled
              moveCompletedTime := i.now + i.walkDuration + 300 }, [])
        else (s, [])
      else (s, [])
    | .click_to_start =>
      if s.moveCompletedTime ≤ i.now then
        if s.currentStepClickEnabled = true then
          if s.clickLock = false then
            ({ s with
                clickLock := true
                autoWalkState := .wait_for_target
                waitForTargetStart := i.now },
             [{ source := .autoWalkStart, delay := s.clickDelay, confidence := 0,
                acquiredLock := true, time := i.now }])
          else (s, [])
        else ({ s with autoWalkState := .move }, [])
      else (s, [])
    | .wait_for_target =>
      if i.targetEngaged = true then
        ({ s with autoWalkState := .digging, targetDisengagedTime := 0, clickRetryCount := 0 }, [])
      else if max_wait_time < i.now - s.waitForTargetStart then
        if s.clickRetryCount < max_click_retries then
          if s.clickLock = false then
            ({ s with
                clickRetryCount := s.clickRetryCount + 1
                clickLock := true
                waitForTargetStart := i.now },
             [{ source := .autoWalkRetry, delay := 0, confidence := 0,
                acquiredLock := true, time := i.now }])
          else ({ s with clickRetryCount := s.clickRetryCount + 1 }, [])
        else ({ s with clickRetryCount := 0, autoWalkState := .move }, [])
      else (s, [])
    | .digging =>
      if i.targetEngaged = false then
        if s.targetDisengagedTime = 0 then
          ({ s with targetDisengagedTime := i.now }, [])
        else (s, [])
      else ({ s with targetDisengagedTime := 0 }, [])
  else (s, [])

/-- `should_allow_clicking`, `main.py` lines 1805-1813: with auto-walk
enabled, clicking is allowed only while digging with engagement and not
selling; otherwise engagement alone gates it. -/
def should_allow_clicking (i : FrameInput) (s : LoopState) : Bool :=
  if i.autoWalkEnabled then
    decide (s.autoWalkState = .digging) && !i.isSelling && i.targetEngaged
  else i.targetEngaged

/-- Predictive branch of the scheduler, `main.py` lines 1838-1893:
when prediction is enabled, the line is detected and moving toward the
sweet-spot center, the oracle prediction is valid (positive arrival
time, predicted position within the sweet-spot radius) and the combined
confidence reaches the fps-adjusted threshold, the branch yields the
scheduling delay `prediction_time − system_latency·(120/fps)·0.8`
together with that confidence, and only when the delay is positive. -/
def predictive_decision (i : FrameInput) (center ssStart ssEnd : ℚ) : Option (ℚ × ℚ) :=
  if i.predictionEnabled = true ∧ i.linePos ≠ -1 then
    if ((i.linePos : ℚ) < center ∧ 0 < i.velocity) ∨
        (center < (i.linePos : ℚ) ∧ i.velocity < 0) then
      if 0 < i.predictionTime then
        let distance_to_center := |i.predictedPos - center|
        let sweet_spot_radius := (ssEnd - ssStart) / 2
        if distance_to_center ≤ sweet_spot_radius then
          let base_confidence := max 0 (1 - distance_to_center / sweet_spot_radius)
          let confidence := base_confidence * i.velocityConfidence
          let fps_adjusted_threshold := i.predictionConfidenceThreshold * i.fpsPowFactor
          if fps_adjusted_threshold ≤ confidence then
            let fps_latency_adjustment := i.systemLatency * (120 / i.gameFps) * (8/10)
            let sleep_duration := i.predictionTime - fps_latency_adjustment
            if 0 < sleep_duration then some (sleep_duration, confidence) else none
          else none
        else none
      else none
    else none
  else none

/-- Click-scheduler block, `main.py` lines 1815-1920.  The guard
(lines 1820-1827) requires a running bot with clicking allowed, the
blind period elapsed, a sweet spot present, the click token free, and
the 100 ms startup grace period over.  The predictive branch is
evaluated first; a firing predictive branch schedules a delayed click
(acquiring the token), otherwise a line inside the sweet spot triggers
an instant click with confidence 1 (no token acquisition,
`perform_instant_click`, which silently drops the click when the
bounded thread pool is full).  Any scheduler click decision sets
`blind_until = now + post_click_blindness`, even when the pool drops
the instant click. -/
def scheduler_phase (i : FrameInput) (s : LoopState) : LoopState × List ClickEvent :=
  match i.sweetSpot with
  | none => (s, [])
  | some (center, ssStart, ssEnd) =>
    if i.running = true ∧ should_allow_clicking i s = true ∧ s.blindUntil ≤ i.now ∧
        s.clickLock = false ∧ startup_grace_period < i.now - s.startupTime then
      match predictive_decision i center ssStart ssEnd with
      | some (sleep_duration, confidence) =>
        ({ s with
            blindUntil := i.now + i.postClickBlindness
            clickDelay := sleep_duration
            clickLock := true },
         [{ source := .predictive, delay := sleep_duration, confidence := confidence,
            acquiredLock := true, time := i.now }])
      | none =>
        if ssStart ≤ (i.linePos : ℚ) ∧ (i.linePos : ℚ) ≤ ssEnd then
          ({ s with blindUntil := i.now + i.postClickBlindness, clickDelay := 0 },
           if i.instantPoolHasRoom = true then
             [{ source := .directInstant, delay := 0, confidence := 1,
                acquiredLock := false, time := i.now }]
           else [])
        else ({ s with clickDelay := 0 }, [])
    else (s, [])

/-- Dig-completion block, `main.py` lines 1922-1953: with auto-walk
enabled, in `digging`, once the disengagement timestamp is set and more
than 1500 ms old, the dig count is incremented, the post-dig delay
timer starts (`dig_completed_time = now`), the pending-sell flag is set
when the sell threshold is met, and the state returns to `move`. -/
def dig_completion_phase (i : FrameInput) (s : LoopState) : LoopState :=
  if i.autoWalkEnabled = true ∧ s.autoWalkState = .digging ∧ 0 < s.targetDisengagedTime ∧
      1500 < i.now - s.targetDisengagedTime then
    let dig_count := s.digCount + 1
    let pending :=
      if i.autoSellEnabled = true ∧ i.hasSellButton = true ∧ 0 < dig_count ∧
          dig_count % i.sellEveryXDigs = 0 then true
      else s.pendingAutoSell
    { s with
        digCount := dig_count
        digCompletedTime := i.now
        pendingAutoSell := pending
        autoWalkState := .move }
  else s

/-- One full modelled iteration of `run_main_loop`, in source order,
returning the new state and the clicks dispatched during the frame. -/
def frameStep (i : FrameInput) (s : LoopState) : LoopState × List ClickEvent :=
  let s1 := auto_sell_timeout_clear i (apply_click_release i s)
  let p2 := auto_walk_phase i s1
  let p3 := scheduler_phase i p2.1
  (dig_completion_phase i p3.1, p2.2 ++ p3.2)

/-- A run of consecutive loop iterations, concatenating the dispatched
clicks in order. -/
def runFrames : List FrameInput → LoopState → LoopState × List ClickEvent
  | [], s => (s, [])
  | i :: rest, s =>
    let p := frameStep i s
    let q := runFrames rest p.1
    (q.1, p.2 ++ q.2)

theorem apply_click_release_fields (i : FrameInput) (s : LoopState) :
    (apply_click_release i s).blindUntil = s.blindUntil ∧
    (apply_click_release i s).autoWalkState = s.autoWalkState ∧
    (apply_click_release i s).digCount = s.digCount ∧
    (apply_click_release i s).targetDisengagedTime = s.targetDisengagedTime ∧
    (apply_click_release i s).clickRetryCount = s.clickRetryCount ∧
    (apply_click_release i s).waitForTargetStart = s.waitForTargetStart := by
  unfold apply_click_release
  split <;> exact ⟨rfl, rfl, rfl, rfl, rfl, rfl⟩

theorem auto_sell_timeout_clear_fields (i : FrameInput) (s : LoopState) :
    (auto_sell_timeout_clear i s).blindUntil = s.blindUntil ∧
    (auto_sell_timeout_clear i s).autoWalkState = s.autoWalkState ∧
    (auto_sell_timeout_clear i s).digCount = s.digCount ∧
    (auto_sell_timeout_clear i s).targetDisengagedTime = s.targetDisengagedTime ∧
    (auto_sell_timeout_clear i s).clickRetryCount = s.clickRetryCount ∧
    (auto_sell_timeout_clear i s).waitForTargetStart = s.waitForTargetStart ∧
    (auto_sell_timeout_clear i s).clickLock = s.clickLock := by
  unfold auto_sell_timeout_clear
  split <;> exact ⟨rfl, rfl, rfl, rfl, rfl, rfl, rfl⟩

theorem auto_walk_phase_preserves (i : FrameInput) (s : LoopState) :
    (auto_walk_phase i s).1.blindUntil = s.blindUntil ∧
    (auto_walk_phase i s).1.digCount = s.digCount ∧
    (auto_walk_phase i s).1.startupTime = s.startupTime := by
  unfold auto_walk_phase
  split
  · split <;> split_ifs <;> exact ⟨rfl, rfl, rfl⟩
  · exact ⟨rfl, rfl, rfl⟩

theorem auto_walk_phase_locked (i : FrameInput) (s : LoopState)
    (h : s.clickLock = true) :
    (auto_walk_phase i s).2 = [] ∧ (auto_walk_phase i s).1.clickLock = true := by
  unfold auto_walk_phase
  split
  · split <;> split_ifs <;> simp_all
  · exact ⟨rfl, h⟩

theorem auto_walk_phase_events (i : FrameInput) (s : LoopState) :
    (auto_walk_phase i s).2 = [] ∨
    ∃ e, (auto_walk_phase i s).2 = [e] ∧ s.clickLock = false ∧
      (auto_walk_phase i s).1.clickLock = true ∧ e.acquiredLock = true ∧ e.time = i.now ∧
      (e.source = .autoWalkStart ∨ e.source = .autoWalkRetry) := by
  unfold auto_walk_phase
  split
  · split <;> split_ifs <;>
      first
        | exact Or.inl rfl
        | (rename_i hlock
           exact Or.inr ⟨_, rfl, hlock, rfl, rfl, rfl, by simp⟩)
  · exact Or.inl rfl

theorem scheduler_phase_preserves (i : FrameInput) (s : LoopState) :
    (scheduler_phase i s).1.autoWalkState = s.autoWalkState ∧
    (scheduler_phase i s).1.digCount = s.digCount ∧
    (scheduler_phase i s).1.targetDisengagedTime = s.targetDisengagedTime ∧
    (scheduler_phase i s).1.clickRetryCount = s.clickRetryCount ∧
    (scheduler_phase i s).1.waitForTargetStart = s.waitForTargetStart := by
  unfold scheduler_phase
  split
  · exact ⟨rfl, rfl, rfl, rfl, rfl⟩
  · split
    · split
      · exact ⟨rfl, rfl, rfl, rfl, rfl⟩
      · split <;> exact ⟨rfl, rfl, rfl, rfl, rfl⟩
    · exact ⟨rfl, rfl, rfl, rfl, rfl⟩

theorem scheduler_phase_events (i : FrameInput) (s : LoopState) :
    ((scheduler_phase i s).2 = [] ∧ (scheduler_phase i s).1.clickLock = s.clickLock ∧
      ((scheduler_phase i s).1.blindUntil = s.blindUntil ∨
        (s.clickLock = false ∧ s.blindUntil ≤ i.now ∧
          (scheduler_phase i s).1.blindUntil = i.now + i.postClickBlindness))) ∨
    ∃ e, (scheduler_phase i s).2 = [e] ∧ s.clickLock = false ∧ s.blindUntil ≤ i.now ∧
      e.time = i.now ∧
      (scheduler_phase i s).1.blindUntil = i.now + i.postClickBlindness ∧
      ((e.source = .predictive ∧ e.acquiredLock = true ∧
          (scheduler_phase i s).1.clickLock = true) ∨
        (e.source = .directInstant ∧ e.acquiredLock = false ∧
          (scheduler_phase i s).1.clickLock = false)) := by
  unfold scheduler_phase
  split
  · exact Or.inl ⟨rfl, rfl, Or.inl rfl⟩
  · split
    · rename_i hguard
      split
      · exact Or.inr ⟨_, rfl, hguard.2.2.2.1, hguard.2.2.1, rfl, rfl,
          Or.inl ⟨rfl, rfl, rfl⟩⟩
      · split
        · split
          · exact Or.inr ⟨_, rfl, hguard.2.2.2.1, hguard.2.2.1, rfl, rfl,
              Or.inr ⟨rfl, rfl, hguard.2.2.2.1⟩⟩
          · exact Or.inl ⟨rfl, rfl, Or.inr ⟨hguard.2.2.2.1, hguard.2.2.1, rfl⟩⟩
        · exact Or.inl ⟨rfl, rfl, Or.inl rfl⟩
    · exact Or.inl ⟨rfl, rfl, Or.inl rfl⟩

theorem scheduler_phase_locked (i : FrameInput) (s : LoopState)
    (h : s.clickLock = true) :
    (scheduler_phase i s).2 = [] ∧ (scheduler_phase i s).1.clickLock = true ∧
    (scheduler_phase i s).1.blindUntil = s.blindUntil := by
  rcases scheduler_phase_events i s with ⟨h1, h3, hbd⟩ | ⟨e, -, hfree, -⟩
  · refine ⟨h1, h3 ▸ h, ?_⟩
    rcases hbd with hbd | ⟨hfree, -, -⟩
    · exact hbd
    · rw [h] at hfree
      cases hfree
  · rw [h] at hfree
    cases hfree

theorem dig_completion_phase_fields (i : FrameInput) (s : LoopState) :
    (dig_completion_phase i s).clickLock = s.clickLock ∧
    (dig_completion_phase i s).blindUntil = s.blindUntil := by
  unfold dig_completion_phase
  split <;> exact ⟨rfl, rfl⟩

theorem scheduler_phase_not_allowed (i : FrameInput) (s : LoopState)
    (h : should_allow_clicking i s = false) :
    scheduler_phase i s = (s, []) := by
  unfold scheduler_phase
  split
  · rfl
  · rw [if_neg]
    rintro ⟨-, hallow, -⟩
    rw [h] at hallow
    cases hallow

theorem dig_completion_phase_not_digging (i : FrameInput) (s : LoopState)
    (h : s.autoWalkState ≠ .digging) :
    dig_completion_phase i s = s := by
  unfold dig_completion_phase
  rw [if_neg]
  rintro ⟨-, h2, -⟩
  exact h h2

theorem should_allow_of_not_digging (i : FrameInput) (s : LoopState)
    (hw : i.autoWalkEnabled = true) (h : s.autoWalkState ≠ .digging) :
    should_allow_clicking i s = false := by
  unfold should_allow_clicking
  rw [if_pos hw]
  simp [h]

theorem auto_walk_phase_to_digging (i : FrameInput) (s : LoopState) :
    (auto_walk_phase i s).1.autoWalkState = .digging →
      s.autoWalkState = .digging ∨ (auto_walk_phase i s).1.targetDisengagedTime = 0 := by
  unfold auto_walk_phase
  split
  · split <;> split_ifs <;> simp_all
  · exact fun h => Or.inl h

/-- C1 (amended): in any frame, the predictive delayed click, the
auto-walk `click_to_start` click and the `wait_for_target` retry click
each acquire the click-exclusivity token at dispatch; no click of any
kind is dispatched while the token is held; and at most one click is
dispatched per frame.  The direct instant click, however, is only
guarded by the token: it is dispatched through `perform_instant_click`
without acquiring it, so the token remains free while that click is in
flight (token release on task completion lives in
`core/automation.py`'s `perform_click_action`, outside `src/`, and is
spec-modelled by `apply_click_release`). -/
theorem click_token_discipline (i : FrameInput) (s : LoopState) :
    ((apply_click_release i s).clickLock = true → (frameStep i s).2 = []) ∧
    (∀ e ∈ (frameStep i s).2, e.source ≠ ClickSource.directInstant → e.acquiredLock = true) ∧
    (∀ e ∈ (frameStep i s).2, e.source = ClickSource.directInstant →
      e.acquiredLock = false ∧ (frameStep i s).1.clickLock = false) ∧
    (frameStep i s).2.length ≤ 1 := by
  have hs1lock : (auto_sell_timeout_clear i (apply_click_release i s)).clickLock
      = (apply_click_release i s).clickLock :=
    (auto_sell_timeout_clear_fields i (apply_click_release i s)).2.2.2.2.2.2
  have hfs1 : (frameStep i s).1 =
      dig_completion_phase i
        (scheduler_phase i
          (auto_walk_phase i (auto_sell_timeout_clear i (apply_click_release i s))).1).1 := rfl
  have hfs2 : (frameStep i s).2 =
      (auto_walk_phase i (auto_sell_timeout_clear i (apply_click_release i s))).2 ++
        (scheduler_phase i
          (auto_walk_phase i (auto_sell_timeout_clear i (apply_click_release i s))).1).2 := rfl
  set s1 := auto_sell_timeout_clear i (apply_click_release i s) with hs1
  rcases auto_walk_phase_events i s1 with hA | ⟨ea, hA, haFree, haLock, haAcq, haTime, haSrc⟩
  · rcases scheduler_phase_events i (auto_walk_phase i s1).1 with
      ⟨hC, -, -⟩ | ⟨ec, hC, hcFree, hcBlind, hcTime, hcBlind2, hcSrc⟩
    · refine ⟨fun _ => ?_, ?_, ?_, ?_⟩
      · rw [hfs2, hA, hC]; rfl
      · intro e he
        rw [hfs2, hA, hC] at he
        cases he
      · intro e he
        rw [hfs2, hA, hC] at he
        cases he
      · rw [hfs2, hA, hC]
        simp
    · refine ⟨fun hheld => ?_, ?_, ?_, ?_⟩
      · exfalso
        have h1 : s1.clickLock = true := by rw [hs1lock]; exact hheld
        have h2 := (auto_walk_phase_locked i s1 h1).2
        rw [h2] at hcFree
        cases hcFree
      · intro e he hnd
        rw [hfs2, hA, hC] at he
        simp only [List.nil_append, List.mem_singleton] at he
        subst he
        rcases hcSrc with ⟨hsrc, hacq, -⟩ | ⟨hsrc, -, -⟩
        · exact hacq
        · exact absurd hsrc hnd
      · intro e he hd
        rw [hfs2, hA, hC] at he
        simp only [List.nil_append, List.mem_singleton] at he
        subst he
        rcases hcSrc with ⟨hsrc, -, -⟩ | ⟨-, hacq, hlock⟩
        · rw [hsrc] at hd
          cases hd
        · refine ⟨hacq, ?_⟩
          rw [hfs1]
          rw [(dig_completion_phase_fields i _).1]
          exact hlock
      · rw [hfs2, hA, hC]
        simp
  · have hCnone := scheduler_phase_locked i (auto_walk_phase i s1).1 haLock
    refine ⟨fun hheld => ?_, ?_, ?_, ?_⟩
    · exfalso
      have h1 : s1.clickLock = true := by rw [hs1lock]; exact hheld
      rw [h1] at haFree
      cases haFree
    · intro e he _
      rw [hfs2, hA, hCnone.1] at he
      simp only [List.append_nil, List.mem_singleton] at he
      subst he
      exact haAcq
    · intro e he hd
      rw [hfs2, hA, hCnone.1] at he
      simp only [List.append_nil, List.mem_singleton] at he
      subst he
      rcases haSrc with hsrc | hsrc <;> (rw [hsrc] at hd; cases hd)
    · rw [hfs2, hA, hCnone.1]
      simp

/-- C2 (amended): in a frame where the scheduler guard holds (bot
running, clicking allowed, click token free, blind period elapsed, a
sweet spot present, and the 100 ms startup grace period over), the line
position lies within the sweet spot, and the predictive branch does not
schedule a click (in particular whenever prediction is disabled), the
scheduler dispatches an immediate click with zero delay and confidence
exactly 1, provided the bounded instant-click thread pool has room;
with sweet spot `[90, 110]` and line position 100 this is the direct
click of the scenario. -/
theorem direct_click_immediate (i : FrameInput) (s : LoopState) (center ssStart ssEnd : ℚ)
    (hss : i.sweetSpot = some (center, ssStart, ssEnd))
    (hrun : i.running = true)
    (hallow : should_allow_clicking i s = true)
    (hblind : s.blindUntil ≤ i.now)
    (hlock : s.clickLock = false)
    (hgrace : startup_grace_period < i.now - s.startupTime)
    (hpred : predictive_decision i center ssStart ssEnd = none)
    (hin : ssStart ≤ (i.linePos : ℚ) ∧ (i.linePos : ℚ) ≤ ssEnd)
    (hpool : i.instantPoolHasRoom = true) :
    (scheduler_phase i s).2 =
      [{ source := .directInstant, delay := 0, confidence := 1,
         acquiredLock := false, time := i.now }] := by
  unfold scheduler_phase
  rw [hss]
  dsimp only
  rw [if_pos ⟨hrun, hallow, hblind, hlock, hgrace⟩]
  rw [hpred, if_pos hin, if_pos hpool]

/-- C5: under the predictive-branch conditions (prediction enabled,
line detected and moving toward the sweet-spot center, positive
predicted arrival time, predicted position within the sweet-spot
radius, combined confidence at least the fps-adjusted threshold
`prediction_confidence_threshold · (fps/120)^0.15`), the branch yields
exactly the delay `predictedTimeToArrival − systemLatency·(120/fps)·0.8`
when that delay is strictly positive and yields nothing otherwise; and
whenever the branch yields a delay while the scheduler guard holds, the
scheduler dispatches exactly one delayed predictive click with that
delay. -/
theorem predictive_schedule (i : FrameInput) (center ssStart ssEnd : ℚ)
    (hen : i.predictionEnabled = true)
    (hline : i.linePos ≠ -1)
    (hmov : ((i.linePos : ℚ) < center ∧ 0 < i.velocity) ∨
      (center < (i.linePos : ℚ) ∧ i.velocity < 0))
    (hpt : 0 < i.predictionTime)
    (hdist : |i.predictedPos - center| ≤ (ssEnd - ssStart) / 2)
    (hconf : i.predictionConfidenceThreshold * i.fpsPowFactor ≤
      max 0 (1 - |i.predictedPos - center| / ((ssEnd - ssStart) / 2)) * i.velocityConfidence) :
    (0 < i.predictionTime - i.systemLatency * (120 / i.gameFps) * (8/10) →
      predictive_decision i center ssStart ssEnd =
        some (i.predictionTime - i.systemLatency * (120 / i.gameFps) * (8/10),
          max 0 (1 - |i.predictedPos - center| / ((ssEnd - ssStart) / 2)) *
            i.velocityConfidence)) ∧
    (i.predictionTime - i.systemLatency * (120 / i.gameFps) * (8/10) ≤ 0 →
      predictive_decision i center ssStart ssEnd = none) ∧
    (∀ (s : LoopState) (d c : ℚ), i.running = true → should_allow_clicking i s = true →
      s.blindUntil ≤ i.now → s.clickLock = false →
      startup_grace_period < i.now - s.startupTime →
      i.sweetSpot = some (center, ssStart, ssEnd) →
      predictive_decision i center ssStart ssEnd = some (d, c) →
      (scheduler_phase i s).2 =
        [{ source := .predictive, delay := d, confidence := c,
           acquiredLock := true, time := i.now }]) := by
  have hbase : predictive_decision i center ssStart ssEnd =
      (if 0 < i.predictionTime - i.systemLatency * (120 / i.gameFps) * (8/10) then
        some (i.predictionTime - i.systemLatency * (120 / i.gameFps) * (8/10),
          max 0 (1 - |i.predictedPos - center| / ((ssEnd - ssStart) / 2)) *
            i.velocityConfidence)
      else none) := by
    unfold predictive_decision
    rw [if_pos ⟨hen, hline⟩, if_pos hmov, if_pos hpt]
    dsimp only
    rw [if_pos hdist, if_pos hconf]
  refine ⟨fun hpos => ?_, fun hneg => ?_, fun s d c hrun hallow hblind hlock hgrace hss hsome => ?_⟩
  · rw [hbase, if_pos hpos]
  · rw [hbase, if_neg (not_lt.mpr hneg)]
  · unfold scheduler_phase
    rw [hss]
    dsimp only
    rw [if_pos ⟨hrun, hallow, hblind, hlock, hgrace⟩]
    rw [hsome]

theorem auto_walk_wait_timeout (i : FrameInput) (s : LoopState)
    (hrun : i.running = true) (hwalk : i.autoWalkEnabled = true) (hsell : i.isSelling = false)
    (hst : s.autoWalkState = .wait_for_target)
    (heng : i.targetEngaged = false)
    (hto : max_wait_time < i.now - s.waitForTargetStart) :
    (s.clickRetryCount < max_click_retries →
      (s.clickLock = false →
        auto_walk_phase i s =
          ({ s with
              clickRetryCount := s.clickRetryCount + 1
              clickLock := true
              waitForTargetStart := i.now },
           [{ source := .autoWalkRetry, delay := 0, confidence := 0,
              acquiredLock := true, time := i.now }])) ∧
      (s.clickLock = true →
        auto_walk_phase i s = ({ s with clickRetryCount := s.clickRetryCount + 1 }, []))) ∧
    (max_click_retries ≤ s.clickRetryCount →
      auto_walk_phase i s = ({ s with clickRetryCount := 0, autoWalkState := .move }, [])) := by
  unfold auto_walk_phase
  rw [if_pos ⟨hrun, hwalk, hsell⟩, hst]
  dsimp only
  rw [if_neg (by simp [heng]), if_pos hto]
  refine ⟨fun hlt => ?_, fun hge => ?_⟩
  · rw [if_pos hlt]
    refine ⟨fun hfree => ?_, fun hheld => ?_⟩
    · rw [if_pos hfree]
    · rw [if_neg (by simp [hheld])]
  · rw [if_neg (not_lt.mpr hge)]

/-- C4 (amended): in `wait_for_target`, each elapse of the 5000 ms
window without target engagement increments the retry counter while
retries remain (dispatching a retry click and restarting the window
when the click token is free), bounded by 2 retries; when the window
elapses again after both retries are used (the third elapse), the state
machine returns to `move` with the retry counter reset to 0. -/
theorem wait_for_target_retry (i : FrameInput) (s : LoopState)
    (hrun : i.running = true) (hwalk : i.autoWalkEnabled = true) (hsell : i.isSelling = false)
    (hst : s.autoWalkState = .wait_for_target)
    (heng : i.targetEngaged = false)
    (hto : max_wait_time < i.now - s.waitForTargetStart) :
    (s.clickRetryCount < max_click_retries →
      (frameStep i s).1.autoWalkState = .wait_for_target ∧
      (frameStep i s).1.clickRetryCount = s.clickRetryCount + 1 ∧
      ((apply_click_release i s).clickLock = false →
        (frameStep i s).2 =
          [{ source := .autoWalkRetry, delay := 0, confidence := 0,
             acquiredLock := true, time := i.now }] ∧
        (frameStep i s).1.waitForTargetStart = i.now)) ∧
    (max_click_retries ≤ s.clickRetryCount →
      (frameStep i s).1.autoWalkState = .move ∧
      (frameStep i s).1.clickRetryCount = 0 ∧ (frameStep i s).2 = []) := by
  set s1 := auto_sell_timeout_clear i (apply_click_release i s) with hs1def
  obtain ⟨-, hstA, -, -, hretryA, hwaitA⟩ := apply_click_release_fields i s
  obtain ⟨-, hstB, -, -, hretryB, hwaitB, hlockB⟩ :=
    auto_sell_timeout_clear_fields i (apply_click_release i s)
  have hst1 : s1.autoWalkState = .wait_for_target := by
    rw [hs1def, hstB, hstA]; exact hst
  have hretry1 : s1.clickRetryCount = s.clickRetryCount := by
    rw [hs1def, hretryB, hretryA]
  have hwait1 : s1.waitForTargetStart = s.waitForTargetStart := by
    rw [hs1def, hwaitB, hwaitA]
  have hto1 : max_wait_time < i.now - s1.waitForTargetStart := by rw [hwait1]; exact hto
  have hAW := auto_walk_wait_timeout i s1 hrun hwalk hsell hst1 heng hto1
  have hfs1 : (frameStep i s).1 =
      dig_completion_phase i (scheduler_phase i (auto_walk_phase i s1).1).1 := rfl
  have hfs2 : (frameStep i s).2 =
      (auto_walk_phase i s1).2 ++ (scheduler_phase i (auto_walk_phase i s1).1).2 := rfl
  have finish : ∀ t : LoopState, t.autoWalkState ≠ .digging →
      scheduler_phase i t = (t, []) ∧ dig_completion_phase i t = t := by
    intro t ht
    exact ⟨scheduler_phase_not_allowed i t (should_allow_of_not_digging i t hwalk ht),
      dig_completion_phase_not_digging i t ht⟩
  refine ⟨fun hlt => ?_, fun hge => ?_⟩
  · have hlt1 : s1.clickRetryCount < max_click_retries := by rw [hretry1]; exact hlt
    by_cases hfree : s1.clickLock = false
    · have hAWeq := (hAW.1 hlt1).1 hfree
      have hnd : ({ s1 with
          clickRetryCount := s1.clickRetryCount + 1
          clickLock := true
          waitForTargetStart := i.now } : LoopState).autoWalkState ≠ .digging := by
        show s1.autoWalkState ≠ .digging
        rw [hst1]; intro h; cases h
      obtain ⟨hsch, hdig⟩ := finish _ hnd
      refine ⟨?_, ?_, fun _ => ⟨?_, ?_⟩⟩
      · rw [hfs1, hAWeq, hsch, hdig]; exact hst1
      · rw [hfs1, hAWeq, hsch, hdig]
        show s1.clickRetryCount + 1 = s.clickRetryCount + 1
        rw [hretry1]
      · rw [hfs2, hAWeq, hsch]
        rfl
      · rw [hfs1, hAWeq, hsch, hdig]
    · have hheld : s1.clickLock = true := by
        cases hx : s1.clickLock
        · exact absurd hx hfree
        · rfl
      have hAWeq := (hAW.1 hlt1).2 hheld
      have hnd : ({ s1 with clickRetryCount := s1.clickRetryCount + 1 } : LoopState).autoWalkState
          ≠ .digging := by
        show s1.autoWalkState ≠ .digging
        rw [hst1]; intro h; cases h
      obtain ⟨hsch, hdig⟩ := finish _ hnd
      refine ⟨?_, ?_, fun hrel => ?_⟩
      · rw [hfs1, hAWeq, hsch, hdig]; exact hst1
      · rw [hfs1, hAWeq, hsch, hdig]
        show s1.clickRetryCount + 1 = s.clickRetryCount + 1
        rw [hretry1]
      · exfalso
        rw [hs1def, hlockB] at hheld
        rw [hrel] at hheld
        cases hheld
  · have hge1 : max_click_retries ≤ s1.clickRetryCount := by rw [hretry1]; exact hge
    have hAWeq := hAW.2 hge1
    have hnd : ({ s1 with clickRetryCount := 0, autoWalkState := .move } : LoopState).autoWalkState
        ≠ .digging := by
      intro h; cases h
    obtain ⟨hsch, hdig⟩ := finish _ hnd
    refine ⟨?_, ?_, ?_⟩
    · rw [hfs1, hAWeq, hsch, hdig]
    · rw [hfs1, hAWeq, hsch, hdig]
    · rw [hfs2, hAWeq, hsch]
      rfl

theorem auto_walk_digging_noop (i : FrameInput) (s : LoopState)
    (hst : s.autoWalkState = .digging)
    (heng : i.targetEngaged = false)
    (hdis : s.targetDisengagedTime ≠ 0) :
    auto_walk_phase i s = (s, []) := by
  unfold auto_walk_phase
  split
  · rewrite [hst]
    dsimp only
  · rfl

/-- C7: with auto-walk enabled, in state `digging`, once engagement is
lost (the disengagement timestamp is set) and the frame observes it
lost for more than the sustained 1500 ms threshold, the frame
transitions the machine to `move`, increments the dig count by exactly
one, and starts the post-dig delay timer at the current time; and no
frame whose state is not `digging` ever changes the dig count, so the
increment happens exactly once per dig. -/
theorem dig_complete_transition (i : FrameInput) (s : LoopState)
    (hwalk : i.autoWalkEnabled = true)
    (hst : s.autoWalkState = .digging)
    (heng : i.targetEngaged = false)
    (hdis : 0 < s.targetDisengagedTime)
    (hdur : 1500 < i.now - s.targetDisengagedTime) :
    ((frameStep i s).1.autoWalkState = .move ∧
     (frameStep i s).1.digCount = s.digCount + 1 ∧
     (frameStep i s).1.digCompletedTime = i.now) ∧
    (∀ (j : FrameInput) (t : LoopState), t.autoWalkState ≠ .digging →
      (frameStep j t).1.digCount = t.digCount) := by
  constructor
  · set s1 := auto_sell_timeout_clear i (apply_click_release i s) with hs1def
    obtain ⟨-, hstA, hdigA, hdisA, -, -⟩ := apply_click_release_fields i s
    obtain ⟨-, hstB, hdigB, hdisB, -, -, -⟩ :=
      auto_sell_timeout_clear_fields i (apply_click_release i s)
    have hst1 : s1.autoWalkState = .digging := by rw [hs1def, hstB, hstA]; exact hst
    have hdis1 : s1.targetDisengagedTime = s.targetDisengagedTime := by
      rw [hs1def, hdisB, hdisA]
    have hdig1 : s1.digCount = s.digCount := by rw [hs1def, hdigB, hdigA]
    have hAWeq : auto_walk_phase i s1 = (s1, []) :=
      auto_walk_digging_noop i s1 hst1 heng (by rw [hdis1]; exact ne_of_gt hdis)
    have hallow : should_allow_clicking i s1 = false := by
      unfold should_allow_clicking
      rw [if_pos hwalk, heng]
      simp
    have hsch : scheduler_phase i s1 = (s1, []) := scheduler_phase_not_allowed i s1 hallow
    have hfs1 : (frameStep i s).1 =
        dig_completion_phase i (scheduler_phase i (auto_walk_phase i s1).1).1 := rfl
    rw [hfs1, hAWeq, hsch]
    unfold dig_completion_phase
    rw [if_pos ⟨hwalk, hst1, by rw [hdis1]; exact hdis, by rw [hdis1]; exact hdur⟩]
    exact ⟨rfl, by show s1.digCount + 1 = s.digCount + 1; rw [hdig1], rfl⟩
  · intro j t ht
    set t1 := auto_sell_timeout_clear j (apply_click_release j t) with ht1def
    obtain ⟨-, hstA, hdigA, -, -, -⟩ := apply_click_release_fields j t
    obtain ⟨-, hstB, hdigB, -, -, -, -⟩ :=
      auto_sell_timeout_clear_fields j (apply_click_release j t)
    have hst1 : t1.autoWalkState = t.autoWalkState := by rw [ht1def, hstB, hstA]
    have hdig1 : t1.digCount = t.digCount := by rw [ht1def, hdigB, hdigA]
    have hdig2 : (auto_walk_phase j t1).1.digCount = t.digCount := by
      rw [(auto_walk_phase_preserves j t1).2.1, hdig1]
    obtain ⟨hsst, hsdig, hsdis, -, -⟩ := scheduler_phase_preserves j (auto_walk_phase j t1).1
    have hfs1 : (frameStep j t).1 =
        dig_completion_phase j (scheduler_phase j (auto_walk_phase j t1).1).1 := rfl
    rw [hfs1]
    by_cases hd : (scheduler_phase j (auto_walk_phase j t1).1).1.autoWalkState = .digging
    · have h2 : (auto_walk_phase j t1).1.autoWalkState = .digging := by rw [← hsst]; exact hd
      rcases auto_walk_phase_to_digging j t1 h2 with hcase | hcase
      · exact absurd (hst1 ▸ hcase) ht
      · have hdis3 : (scheduler_phase j (auto_walk_phase j t1).1).1.targetDisengagedTime = 0 := by
          rw [hsdis]; exact hcase
        unfold dig_completion_phase
        rw [if_neg]
        · rw [hsdig, hdig2]
        · rintro ⟨-, -, hpos, -⟩
          rw [hdis3] at hpos
          exact lt_irrefl 0 hpos
    · rw [dig_completion_phase_not_digging j _ hd, hsdig, hdig2]

/-- A click dispatched by the scheduler block (direct instant or
predictive), as opposed to an auto-walk click. -/
def isSchedulerClick (e : ClickEvent) : Bool :=
  decide (e.source = .directInstant ∨ e.source = .predictive)

/-- The scheduler-dispatched clicks of an event list, in order. -/
def schedClicks (evs : List ClickEvent) : List ClickEvent :=
  evs.filter isSchedulerClick

theorem frameStep_blind_law (i : FrameInput) (s : LoopState) :
    (schedClicks (frameStep i s).2 = [] ∧
      ((frameStep i s).1.blindUntil = s.blindUntil ∨
        (s.blindUntil ≤ i.now ∧
          (frameStep i s).1.blindUntil = i.now + i.postClickBlindness))) ∨
    (∃ e, schedClicks (frameStep i s).2 = [e] ∧ e.time = i.now ∧ s.blindUntil ≤ i.now ∧
      (frameStep i s).1.blindUntil = i.now + i.postClickBlindness) := by
  set s1 := auto_sell_timeout_clear i (apply_click_release i s) with hs1def
  have hb1 : s1.blindUntil = s.blindUntil := by
    rw [hs1def, (auto_sell_timeout_clear_fields i _).1, (apply_click_release_fields i s).1]
  have hb2 : (auto_walk_phase i s1).1.blindUntil = s.blindUntil := by
    rw [(auto_walk_phase_preserves i s1).1, hb1]
  have hfs1 : (frameStep i s).1 =
      dig_completion_phase i (scheduler_phase i (auto_walk_phase i s1).1).1 := rfl
  have hfs2 : (frameStep i s).2 =
      (auto_walk_phase i s1).2 ++ (scheduler_phase i (auto_walk_phase i s1).1).2 := rfl
  have hbd : (frameStep i s).1.blindUntil =
      (scheduler_phase i (auto_walk_phase i s1).1).1.blindUntil := by
    rw [hfs1, (dig_completion_phase_fields i _).2]
  rcases auto_walk_phase_events i s1 with hA | ⟨ea, hA, -, haLock, -, -, haSrc⟩
  · rcases scheduler_phase_events i (auto_walk_phase i s1).1 with
      ⟨hC, -, hCbd⟩ | ⟨ec, hC, -, hcBlind, hcTime, hcBlind2, hcSrc⟩
    · left
      refine ⟨?_, ?_⟩
      · rw [hfs2, hA, hC]
        rfl
      · rcases hCbd with hCb | ⟨-, hle, hset⟩
        · exact Or.inl (by rw [hbd, hCb, hb2])
        · exact Or.inr ⟨by rw [← hb2]; exact hle, by rw [hbd, hset]⟩
    · right
      refine ⟨ec, ?_, hcTime, ?_, ?_⟩
      · rw [hfs2, hA, hC]
        have : isSchedulerClick ec = true := by
          rcases hcSrc with ⟨hsrc, -, -⟩ | ⟨hsrc, -, -⟩ <;>
            simp [isSchedulerClick, hsrc]
        simp [schedClicks, this]
      · rw [← hb2]; exact hcBlind
      · rw [hbd, hcBlind2]
  · have hCnone := scheduler_phase_locked i (auto_walk_phase i s1).1 haLock
    left
    refine ⟨?_, Or.inl ?_⟩
    · rw [hfs2, hA, hCnone.1]
      have : isSchedulerClick ea = false := by
        rcases haSrc with hsrc | hsrc <;> simp [isSchedulerClick, hsrc]
      simp [schedClicks, this]
    · rw [hbd, hCnone.2.2, hb2]

theorem frameStep_autowalk_blind (i : FrameInput) (s : LoopState) (e : ClickEvent)
    (he : (frameStep i s).2 = [e]) (hns : isSchedulerClick e = false) :
    (frameStep i s).1.blindUntil = s.blindUntil := by
  set s1 := auto_sell_timeout_clear i (apply_click_release i s) with hs1def
  have hb1 : s1.blindUntil = s.blindUntil := by
    rw [hs1def, (auto_sell_timeout_clear_fields i _).1, (apply_click_release_fields i s).1]
  have hb2 : (auto_walk_phase i s1).1.blindUntil = s.blindUntil := by
    rw [(auto_walk_phase_preserves i s1).1, hb1]
  have hfs1 : (frameStep i s).1 =
      dig_completion_phase i (scheduler_phase i (auto_walk_phase i s1).1).1 := rfl
  have hfs2 : (frameStep i s).2 =
      (auto_walk_phase i s1).2 ++ (scheduler_phase i (auto_walk_phase i s1).1).2 := rfl
  have hbd : (frameStep i s).1.blindUntil =
      (scheduler_phase i (auto_walk_phase i s1).1).1.blindUntil := by
    rw [hfs1, (dig_completion_phase_fields i _).2]
  rcases auto_walk_phase_events i s1 with hA | ⟨ea, hA, -, haLock, -, -, haSrc⟩
  · exfalso
    rcases scheduler_phase_events i (auto_walk_phase i s1).1 with
      ⟨hC, -, -⟩ | ⟨ec, hC, -, -, -, -, hcSrc⟩
    · rw [hfs2, hA, hC] at he
      cases he
    · rw [hfs2, hA, hC, List.nil_append] at he
      simp only [List.cons.injEq, and_true] at he
      subst he
      rcases hcSrc with ⟨hsrc, -, -⟩ | ⟨hsrc, -, -⟩ <;>
        simp [isSchedulerClick, hsrc] at hns
  · have hCnone := scheduler_phase_locked i (auto_walk_phase i s1).1 haLock
    rw [hbd, hCnone.2.2, hb2]

theorem schedClicks_append (a b : List ClickEvent) :
    schedClicks (a ++ b) = schedClicks a ++ schedClicks b := by
  simp [schedClicks, List.filter_append]

theorem runFrames_blind_invariant (B : ℚ) (hB0 : 0 ≤ B) :
    ∀ (inputs : List FrameInput), (∀ i ∈ inputs, i.postClickBlindness = B) →
    ∀ s : LoopState,
      List.Chain' (fun e1 e2 => e1.time + B ≤ e2.time) (schedClicks (runFrames inputs s).2) ∧
      (∀ e ∈ schedClicks (runFrames inputs s).2,
        s.blindUntil ≤ e.time ∧ e.time + B ≤ (runFrames inputs s).1.blindUntil) ∧
      s.blindUntil ≤ (runFrames inputs s).1.blindUntil := by
  intro inputs
  induction inputs with
  | nil =>
    intro _ s
    refine ⟨by simp [runFrames, schedClicks], by simp [runFrames, schedClicks], ?_⟩
    simp [runFrames]
  | cons i rest ih =>
    intro hB s
    have hBi : i.postClickBlindness = B := hB i (by simp)
    have hBrest : ∀ j ∈ rest, j.postClickBlindness = B := fun j hj => hB j (by simp [hj])
    obtain ⟨ihChain, ihMem, ihMono⟩ := ih hBrest (frameStep i s).1
    have hrun1 : (runFrames (i :: rest) s).1 = (runFrames rest (frameStep i s).1).1 := rfl
    have hrun2 : (runFrames (i :: rest) s).2 =
        (frameStep i s).2 ++ (runFrames rest (frameStep i s).1).2 := rfl
    have hsched : schedClicks (runFrames (i :: rest) s).2 =
        schedClicks (frameStep i s).2 ++ schedClicks (runFrames rest (frameStep i s).1).2 := by
      rw [hrun2, schedClicks_append]
    rcases frameStep_blind_law i s with ⟨hE, hBor⟩ | ⟨e, hE, hTime, hLe, hSet⟩
    · have hmono1 : s.blindUntil ≤ (frameStep i s).1.blindUntil := by
        rcases hBor with heq | ⟨hle, hset⟩
        · exact le_of_eq heq.symm
        · rw [hset, hBi]
          calc s.blindUntil ≤ i.now := hle
            _ ≤ i.now + B := by linarith
      rw [hsched, hE, List.nil_append]
      refine ⟨ihChain, fun e' he' => ?_, ?_⟩
      · obtain ⟨h1, h2⟩ := ihMem e' he'
        exact ⟨hmono1.trans h1, by rw [hrun1]; exact h2⟩
      · rw [hrun1]
        exact hmono1.trans ihMono
    · have hSetB : (frameStep i s).1.blindUntil = e.time + B := by
        rw [hSet, hTime, hBi]
      rw [hsched, hE, List.singleton_append]
      have hLeTime : s.blindUntil ≤ e.time := by rw [hTime]; exact hLe
      refine ⟨?_, ?_, ?_⟩
      · refine List.chain'_cons'.mpr ⟨fun b hb => ?_, ihChain⟩
        have hbmem : b ∈ schedClicks (runFrames rest (frameStep i s).1).2 :=
          List.mem_of_mem_head? hb
        have := (ihMem b hbmem).1
        rw [hSetB] at this
        exact this
      · intro e' he'
        rcases List.mem_cons.mp he' with he' | he'
        · subst he'
          refine ⟨hLeTime, ?_⟩
          rw [hrun1, ← hSetB]
          exact ihMono
        · obtain ⟨h1, h2⟩ := ihMem e' he'
          rw [hSetB] at h1
          refine ⟨?_, by rw [hrun1]; exact h2⟩
          calc s.blindUntil ≤ e.time := hLeTime
            _ ≤ e.time + B := by linarith
            _ ≤ e'.time := h1
      · calc s.blindUntil ≤ e.time := hLeTime
          _ ≤ e.time + B := by linarith
          _ ≤ (runFrames rest (frameStep i s).1).1.blindUntil := by rw [← hSetB]; exact ihMono
          _ = (runFrames (i :: rest) s).1.blindUntil := by rw [hrun1]

/-- C6 (amended): every scheduler-dispatched click (direct instant or
predictive) is dispatched only once the current blind deadline has
passed and sets the new blind deadline to `now + post_click_blindness`;
a frame dispatching an auto-walk click leaves the blind deadline
unchanged, and auto-walk clicks are not gated by it; consequently, over
any run with a fixed nonnegative `post_click_blindness`, consecutive
scheduler clicks are always at least one blind window apart, while an
auto-walk click may fall inside a scheduler click's window. -/
theorem blind_window_discipline :
    (∀ (i : FrameInput) (s : LoopState) (e : ClickEvent),
      schedClicks (frameStep i s).2 = [e] →
        s.blindUntil ≤ e.time ∧
        (frameStep i s).1.blindUntil = e.time + i.postClickBlindness) ∧
    (∀ (i : FrameInput) (s : LoopState) (e : ClickEvent),
      (frameStep i s).2 = [e] → isSchedulerClick e = false →
        (frameStep i s).1.blindUntil = s.blindUntil) ∧
    (∀ (inputs : List FrameInput) (B : ℚ) (s : LoopState),
      (∀ i ∈ inputs, i.postClickBlindness = B) → 0 ≤ B →
      List.Chain' (fun e1 e2 => e1.time + B ≤ e2.time)
        (schedClicks (runFrames inputs s).2)) := by
  refine ⟨?_, ?_, ?_⟩
  · intro i s e he
    rcases frameStep_blind_law i s with ⟨hE, -⟩ | ⟨e', hE, hTime, hLe, hSet⟩
    · rw [he] at hE
      cases hE
    · rw [he] at hE
      simp only [List.cons.injEq, and_true] at hE
      obtain rfl : e' = e := hE.symm
      constructor
      · rw [hTime]; exact hLe
      · rw [hSet, hTime]
  · exact frameStep_autowalk_blind
  · intro inputs B s hB hB0
    exact (runFrames_blind_invariant B hB0 inputs hB s).1

/-! ## Concrete scenarios -/

/-- A frame input for scenario runs: bot running past the startup
grace, auto-walk disabled, target engaged, line at column 100 inside
sweet spot `[90, 110]`, prediction disabled, `post_click_blindness`
10 s, 120 fps. -/
def baseInput : FrameInput where
  now := 1000
  running := true
  autoWalkEnabled := false
  isSelling := false
  walkThreadAlive := false
  isAutoSellReady := false
  stepClickEnabled := true
  walkDuration := 100
  targetEngaged := true
  clickTaskCompleted := false
  linePos := 100
  sweetSpot := some (100, 90, 110)
  velocity := 0
  predictionEnabled := false
  predictedPos := 0
  predictionTime := 0
  velocityConfidence := 0
  predictionConfidenceThreshold := 3/10
  fpsPowFactor := 1
  systemLatency := 1/20
  gameFps := 120
  postClickBlindness := 10000
  autoSellEnabled := false
  hasSellButton := false
  sellEveryXDigs := 10
  instantPoolHasRoom := true

/-- The loop state right after the bot is toggled on. -/
def baseState : LoopState where
  autoWalkState := .move
  clickLock := false
  blindUntil := 0
  moveCompletedTime := 0
  waitForTargetStart := 0
  currentStepClickEnabled := true
  digCompletedTime := 0
  targetDisengagedTime := 0
  pendingAutoSell := false
  clickRetryCount := 0
  digCount := 0
  clickDelay := 0
  startupTime := 0

/-- C1 counterexample: a direct instant click is dispatched with the
click-exclusivity token free, and the token is still free after the
dispatch: the `perform_instant_click` path never acquires it, so the
claim that every click path acquires the token before starting the
click task is false (and a second instant click may start while the
first is still in flight). -/
theorem direct_click_skips_token :
    (frameStep baseInput baseState).2 =
      [{ source := .directInstant, delay := 0, confidence := 1,
         acquiredLock := false, time := 1000 }] ∧
    (frameStep baseInput baseState).1.clickLock = false := by
  norm_num [frameStep, apply_click_release, auto_sell_timeout_clear, auto_walk_phase,
    scheduler_phase, predictive_decision, should_allow_clicking, dig_completion_phase,
    startup_grace_period, baseInput, baseState]

/-- A loop state in which a click task is in flight and holds the
click-exclusivity token. -/
def heldState : LoopState := { baseState with clickLock := true }

/-- C1 witness: with the token held (and no completion delivered this
frame), the frame dispatches no click at all. -/
theorem click_token_discipline_witness :
    (apply_click_release baseInput heldState).clickLock = true ∧
    (frameStep baseInput heldState).2 = [] := by
  have h : (apply_click_release baseInput heldState).clickLock = true := rfl
  exact ⟨h, (click_token_discipline baseInput heldState).1 h⟩

/-- C2 witness: the direct-click scenario: sweet spot `[90, 110]`, line
position 100, prediction disabled, token free, blind period elapsed,
clicking allowed, past the startup grace: the scheduler dispatches an
immediate click with zero delay and confidence exactly 1. -/
theorem direct_click_immediate_witness :
    (baseInput.sweetSpot = some (100, 90, 110) ∧ baseInput.running = true ∧
      should_allow_clicking baseInput baseState = true ∧
      baseState.blindUntil ≤ baseInput.now ∧ baseState.clickLock = false ∧
      startup_grace_period < baseInput.now - baseState.startupTime ∧
      predictive_decision baseInput 100 90 110 = none ∧
      ((90 : ℚ) ≤ (baseInput.linePos : ℚ) ∧ (baseInput.linePos : ℚ) ≤ 110) ∧
      baseInput.instantPoolHasRoom = true) ∧
    (scheduler_phase baseInput baseState).2 =
      [{ source := .directInstant, delay := 0, confidence := 1,
         acquiredLock := false, time := baseInput.now }] := by
  have hallow : should_allow_clicking baseInput baseState = true := by
    norm_num [should_allow_clicking, baseInput, baseState]
  have hpred : predictive_decision baseInput 100 90 110 = none := by
    norm_num [predictive_decision, baseInput]
  have hblind : baseState.blindUntil ≤ baseInput.now := by
    norm_num [baseInput, baseState]
  have hgrace : startup_grace_period < baseInput.now - baseState.startupTime := by
    norm_num [baseInput, baseState, startup_grace_period]
  have hin1 : (90 : ℚ) ≤ (baseInput.linePos : ℚ) := by norm_num [baseInput]
  have hin2 : (baseInput.linePos : ℚ) ≤ 110 := by norm_num [baseInput]
  exact ⟨⟨rfl, rfl, hallow, hblind, rfl, hgrace, hpred, ⟨hin1, hin2⟩, rfl⟩,
    direct_click_immediate baseInput baseState 100 90 110 rfl rfl hallow hblind rfl hgrace
      hpred ⟨hin1, hin2⟩ rfl⟩

/-- A frame input in which the line (column 95) is inside the sweet
spot `[90, 110]` and moving toward its center while a valid, confident
prediction is available. -/
def predInput : FrameInput :=
  { baseInput with
      predictionEnabled := true
      linePos := 95
      velocity := 5
      predictedPos := 95
      predictionTime := 1/2
      velocityConfidence := 1 }

/-- C2 counterexample: with every condition of the claim satisfied
(click token free, blind period elapsed, clicking allowed, sweet spot
`[90, 110]` present, line position 95 within it), the scheduler does
not click immediately with confidence 1: the predictive branch is
evaluated first and schedules a delayed click (delay 0.46 s,
confidence 0.5). -/
theorem predictive_preempts_direct :
    (baseState.clickLock = false ∧ baseState.blindUntil ≤ predInput.now ∧
      should_allow_clicking predInput baseState = true ∧
      predInput.sweetSpot = some (100, 90, 110) ∧
      (90 : ℚ) ≤ (predInput.linePos : ℚ) ∧ (predInput.linePos : ℚ) ≤ 110) ∧
    (scheduler_phase predInput baseState).2 =
      [{ source := .predictive, delay := 23/50, confidence := 1/2,
         acquiredLock := true, time := 1000 }] ∧
    (23 : ℚ)/50 ≠ 0 ∧ (1 : ℚ)/2 ≠ 1 := by
  refine ⟨⟨rfl, by norm_num [baseState, predInput, baseInput], ?_, rfl,
      by norm_num [predInput, baseInput], by norm_num [predInput, baseInput]⟩, ?_, ?_, ?_⟩
  · norm_num [should_allow_clicking, predInput, baseInput, baseState]
  · norm_num [scheduler_phase, predictive_decision, should_allow_clicking,
      startup_grace_period, predInput, baseInput, baseState]
  · norm_num
  · norm_num

/-- C5 witness: the predictive branch evaluated on the concrete
prediction scenario (line 95 at velocity 5 toward center 100, arrival
0.5 s, latency 0.05 s at 120 fps): it schedules with delay exactly
`0.5 − 0.05·(120/120)·0.8 = 0.46` s and confidence 0.5. -/
theorem predictive_schedule_witness :
    (predInput.predictionEnabled = true ∧ predInput.linePos ≠ -1 ∧
      ((predInput.linePos : ℚ) < 100 ∧ 0 < predInput.velocity) ∧
      0 < predInput.predictionTime ∧
      |predInput.predictedPos - 100| ≤ ((110 : ℚ) - 90) / 2 ∧
      predInput.predictionConfidenceThreshold * predInput.fpsPowFactor ≤
        max 0 (1 - |predInput.predictedPos - 100| / (((110 : ℚ) - 90) / 2)) *
          predInput.velocityConfidence ∧
      0 < predInput.predictionTime -
        predInput.systemLatency * (120 / predInput.gameFps) * (8/10)) ∧
    predictive_decision predInput 100 90 110 =
      some (predInput.predictionTime -
          predInput.systemLatency * (120 / predInput.gameFps) * (8/10),
        max 0 (1 - |predInput.predictedPos - 100| / (((110 : ℚ) - 90) / 2)) *
          predInput.velocityConfidence) := by
  have hline : predInput.linePos ≠ -1 := by norm_num [predInput, baseInput]
  have hmov1 : (predInput.linePos : ℚ) < 100 := by norm_num [predInput, baseInput]
  have hmov2 : (0 : ℚ) < predInput.velocity := by norm_num [predInput, baseInput]
  have hpt : (0 : ℚ) < predInput.predictionTime := by norm_num [predInput, baseInput]
  have hdist : |predInput.predictedPos - 100| ≤ ((110 : ℚ) - 90) / 2 := by
    norm_num [predInput, baseInput]
  have hconf : predInput.predictionConfidenceThreshold * predInput.fpsPowFactor ≤
      max 0 (1 - |predInput.predictedPos - 100| / (((110 : ℚ) - 90) / 2)) *
        predInput.velocityConfidence := by
    norm_num [predInput, baseInput]
  have hpos : 0 < predInput.predictionTime -
      predInput.systemLatency * (120 / predInput.gameFps) * (8/10) := by
    norm_num [predInput, baseInput]
  exact ⟨⟨rfl, hline, ⟨hmov1, hmov2⟩, hpt, hdist, hconf, hpos⟩,
    (predictive_schedule predInput 100 90 110 rfl hline (Or.inl ⟨hmov1, hmov2⟩) hpt
      hdist hconf).1 hpos⟩

/-- A loop state waiting for target engagement after a `click_to_start`
click, with the wait window started at time 0 and no retries used. -/
def waitState : LoopState := { baseState with autoWalkState := .wait_for_target }

/-- A frame at 6000 ms with auto-walk enabled and no engagement: the
first elapse of the 5000 ms wait window. -/
def waitInput1 : FrameInput :=
  { baseInput with autoWalkEnabled := true, targetEngaged := false, now := 6000 }

/-- A frame at 12000 ms (second elapse of the window), the previous
retry click task having completed and released the token. -/
def waitInput2 : FrameInput := { waitInput1 with now := 12000, clickTaskCompleted := true }

/-- C4 counterexample: after the 5000 ms window has been exceeded twice
without engagement (frames at 6000 ms and 12000 ms, each dispatching a
retry click), the machine is still in `wait_for_target` with the retry
counter at 2; it does not return to `move` until a third elapse of the
window. -/
theorem two_window_elapses_insufficient :
    (runFrames [waitInput1, waitInput2] waitState).1.autoWalkState =
      AutoWalkState.wait_for_target ∧
    (runFrames [waitInput1, waitInput2] waitState).1.clickRetryCount = 2 := by
  norm_num [runFrames, frameStep, apply_click_release, auto_sell_timeout_clear,
    auto_walk_phase, scheduler_phase, predictive_decision, should_allow_clicking,
    dig_completion_phase, startup_grace_period, max_wait_time, max_click_retries,
    post_dig_delay, waitState, waitInput1, waitInput2, baseInput, baseState]

/-- The waiting state of `waitState` with both retries already used. -/
def waitState2 : LoopState := { waitState with clickRetryCount := 2 }

/-- C4 witness: a third elapse of the wait window with both retries
used returns the machine to `move` with the retry counter reset to 0
and no click dispatched. -/
theorem wait_for_target_retry_witness :
    (waitInput1.running = true ∧ waitInput1.autoWalkEnabled = true ∧
      waitInput1.isSelling = false ∧ waitState2.autoWalkState = .wait_for_target ∧
      waitInput1.targetEngaged = false ∧
      max_wait_time < waitInput1.now - waitState2.waitForTargetStart ∧
      max_click_retries ≤ waitState2.clickRetryCount) ∧
    ((frameStep waitInput1 waitState2).1.autoWalkState = .move ∧
      (frameStep waitInput1 waitState2).1.clickRetryCount = 0 ∧
      (frameStep waitInput1 waitState2).2 = []) := by
  have hto : max_wait_time < waitInput1.now - waitState2.waitForTargetStart := by
    norm_num [max_wait_time, waitInput1, waitState2, waitState, baseInput, baseState]
  have hge : max_click_retries ≤ waitState2.clickRetryCount := by
    norm_num [max_click_retries, waitState2, waitState, baseState]
  exact ⟨⟨rfl, rfl, rfl, rfl, rfl, hto, hge⟩,
    (wait_for_target_retry waitInput1 waitState2 rfl rfl rfl rfl rfl hto).2 hge⟩

/-- A loop state digging with engagement, right before a scheduler
click. -/
def digState : LoopState := { baseState with autoWalkState := .digging }

/-- Digging frame at 1000 ms with auto-walk enabled and engagement. -/
def digInput1 : FrameInput := { baseInput with autoWalkEnabled := true }

/-- Engagement lost at 1100 ms. -/
def digInput2 : FrameInput := { digInput1 with now := 1100, targetEngaged := false }

/-- Still disengaged at 2700 ms (1600 ms of sustained loss). -/
def digInput3 : FrameInput := { digInput1 with now := 2700, targetEngaged := false }

/-- The following `move` frame at 2800 ms starting the next walk step. -/
def digInput4 : FrameInput := { digInput1 with now := 2800, targetEngaged := false }

/-- The `click_to_start` frame at 3300 ms, past the step deadline. -/
def digInput5 : FrameInput := { digInput1 with now := 3300, targetEngaged := false }

/-- State after the scheduler click of the first digging frame. -/
def digS1 : LoopState := { digState with blindUntil := 11000 }

/-- State after engagement loss is timestamped at 1100 ms. -/
def digS2 : LoopState := { digS1 with targetDisengagedTime := 1100 }

/-- State after the dig completes at 2700 ms. -/
def digS3 : LoopState :=
  { digS2 with autoWalkState := .move, digCount := 1, digCompletedTime := 2700 }

/-- State after the walk step starts at 2800 ms. -/
def digS4 : LoopState :=
  { digS3 with autoWalkState := .click_to_start, moveCompletedTime := 3200 }

/-- State after the `click_to_start` click at 3300 ms. -/
def digS5 : LoopState :=
  { digS4 with
      autoWalkState := .wait_for_target
      clickLock := true
      waitForTargetStart := 3300 }

/-- C6 counterexample: a scheduler click at 1000 ms sets the blind
deadline to 11000 ms (`post_click_blindness` 10000 ms); the auto-walk
`click_to_start` click then fires at 3300 ms, well inside that window,
and leaves the blind deadline unchanged at 11000 ms: auto-walk clicks
neither respect nor set the blind deadline, so two clicks can occur
within one `post_click_blindness` window. -/
theorem auto_walk_click_within_blind_window :
    (runFrames [digInput1, digInput2, digInput3, digInput4, digInput5] digState).2 =
      [{ source := .directInstant, delay := 0, confidence := 1,
         acquiredLock := false, time := 1000 },
       { source := .autoWalkStart, delay := 0, confidence := 0,
         acquiredLock := true, time := 3300 }] ∧
    (runFrames [digInput1, digInput2, digInput3, digInput4, digInput5] digState).1.blindUntil
      = 11000 ∧
    (3300 : ℚ) < 1000 + 10000 := by
  have h1 : frameStep digInput1 digState =
      (digS1, [{ source := .directInstant, delay := 0, confidence := 1,
                 acquiredLock := false, time := 1000 }]) := by
    norm_num [frameStep, apply_click_release, auto_sell_timeout_clear, auto_walk_phase,
      scheduler_phase, predictive_decision, should_allow_clicking, dig_completion_phase,
      startup_grace_period, max_wait_time, max_click_retries, post_dig_delay,
      digS1, digState, digInput1, baseInput, baseState]
  have h2 : frameStep digInput2 digS1 = (digS2, []) := by
    norm_num [frameStep, apply_click_release, auto_sell_timeout_clear, auto_walk_phase,
      scheduler_phase, predictive_decision, should_allow_clicking, dig_completion_phase,
      startup_grace_period, max_wait_time, max_click_retries, post_dig_delay,
      digS2, digS1, digState, digInput2, digInput1, baseInput, baseState]
  have h3 : frameStep digInput3 digS2 = (digS3, []) := by
    norm_num [frameStep, apply_click_release, auto_sell_timeout_clear, auto_walk_phase,
      scheduler_phase, predictive_decision, should_allow_clicking, dig_completion_phase,
      startup_grace_period, max_wait_time, max_click_retries, post_dig_delay,
      digS3, digS2, digS1, digState, digInput3, digInput1, baseInput, baseState]
  have h4 : frameStep digInput4 digS3 = (digS4, []) := by
    norm_num [frameStep, apply_click_release, auto_sell_timeout_clear, auto_walk_phase,
      scheduler_phase, predictive_decision, should_allow_clicking, dig_completion_phase,
      startup_grace_period, max_wait_time, max_click_retries, post_dig_delay,
      digS4, digS3, digS2, digS1, digState, digInput4, digInput1, baseInput, baseState]
    decide
  have h5 : frameStep digInput5 digS4 =
      (digS5, [{ source := .autoWalkStart, delay := 0, confidence := 0,
                 acquiredLock := true, time := 3300 }]) := by
    norm_num [frameStep, apply_click_release, auto_sell_timeout_clear, auto_walk_phase,
      scheduler_phase, predictive_decision, should_allow_clicking, dig_completion_phase,
      startup_grace_period, max_wait_time, max_click_retries, post_dig_delay,
      digS5, digS4, digS3, digS2, digS1, digState, digInput5, digInput1, baseInput, baseState]
    decide
  have hrun : runFrames [digInput1, digInput2, digInput3, digInput4, digInput5] digState =
      (digS5, [{ source := .directInstant, delay := 0, confidence := 1,
                 acquiredLock := false, time := 1000 },
               { source := .autoWalkStart, delay := 0, confidence := 0,
                 acquiredLock := true, time := 3300 }]) := by
    simp [runFrames, h1, h2, h3, h4, h5]
  rw [hrun]
  refine ⟨rfl, ?_, by norm_num⟩
  show digS5.blindUntil = 11000
  rfl

/-- C6 witness: the blind-window chain evaluated over a concrete
single-frame run with blindness 10000 ms. -/
theorem blind_window_discipline_witness :
    (digInput1.postClickBlindness = 10000 ∧ (0 : ℚ) ≤ 10000) ∧
    List.Chain' (fun e1 e2 => e1.time + 10000 ≤ e2.time)
      (schedClicks (runFrames [digInput1] digState).2) := by
  have h1 : ∀ i ∈ [digInput1], i.postClickBlindness = (10000 : ℚ) := by
    intro i hi
    simp only [List.mem_singleton] at hi
    subst hi
    rfl
  exact ⟨⟨rfl, by norm_num⟩,
    blind_window_discipline.2.2 [digInput1] 10000 digState h1 (by norm_num)⟩

/-- The digging state with the disengagement timestamp set at 1100 ms. -/
def digState3 : LoopState := { digState with targetDisengagedTime := 1100 }

/-- C7 witness: a digging frame at 2700 ms, 1600 ms after engagement
was lost, transitions to `move`, increments the dig count once, and
starts the post-dig delay timer. -/
theorem dig_complete_transition_witness :
    (digInput3.autoWalkEnabled = true ∧ digState3.autoWalkState = .digging ∧
      digInput3.targetEngaged = false ∧ 0 < digState3.targetDisengagedTime ∧
      1500 < digInput3.now - digState3.targetDisengagedTime) ∧
    ((frameStep digInput3 digState3).1.autoWalkState = .move ∧
      (frameStep digInput3 digState3).1.digCount = digState3.digCount + 1 ∧
      (frameStep digInput3 digState3).1.digCompletedTime = digInput3.now) := by
  have h4 : 0 < digState3.targetDisengagedTime := by
    norm_num [digState3, digState, baseState]
  have h5 : 1500 < digInput3.now - digState3.targetDisengagedTime := by
    norm_num [digInput3, digInput1, baseInput, digState3, digState, baseState]
  exact ⟨⟨rfl, rfl, rfl, h4, h5⟩,
    (dig_complete_transition digInput3 digState3 rfl rfl rfl h4 h5).1⟩

end DigTool
